import Mathlib

/-!
Verification of the ibc-monitoring repository's core pipeline against its
natural-language specification.  The JavaScript services are shallowly
embedded as executable Lean functions:

* `WalletBalance` — `src/src/services/walletBalanceService.js`
  (decimal resolution, balance normalisation, the collection orchestrator).
* `AlertMgr` — `src/src/services/alertManager.js`
  (alert deduplication, persistence, routing).
* `WsHub` — the WebSocket hub (channel subscription handling).
* `Db` — `src/src/database/database.js` (`updateWalletBalance`).

JavaScript numbers are modelled as IEEE-754 binary64 values embedded in `ℚ`:
`fpRound` performs round-to-nearest, ties-to-even at 53 significand bits
(overflow and subnormals are outside the range exercised here).  Machine
state (the dedup map, the decimals cache, the `isCollecting` flag) is passed
explicitly; fallible steps are driven by explicit environment parameters.
-/

namespace StrOps

/-- Does the first character list start with the second one?
Model of JavaScript `String.prototype.startsWith` on the char lists. -/
def listStarts : List Char → List Char → Bool
  | _, [] => true
  | [], _ :: _ => false
  | a :: as, b :: bs => a = b && listStarts as bs

/-- Does the second list occur as a contiguous run inside the first?
Model of JavaScript `String.prototype.includes` on the char lists. -/
def listHas : List Char → List Char → Bool
  | l, p =>
    listStarts l p ||
      match l with
      | [] => false
      | _ :: t => listHas t p

/-- JavaScript `s.startsWith(p)`. -/
def strStarts (s p : String) : Bool := listStarts s.data p.data

/-- JavaScript `s.includes(p)`. -/
def strHas (s p : String) : Bool := listHas s.data p.data

theorem listStarts_iff (l p : List Char) :
    listStarts l p = true ↔ ∃ t, l = p ++ t := by
  induction p generalizing l with
  | nil => simp [listStarts]
  | cons b bs ih =>
    cases l with
    | nil =>
      simp [listStarts]
    | cons a as =>
      simp only [listStarts, Bool.and_eq_true, decide_eq_true_eq, ih,
        List.cons_append, List.cons.injEq]
      constructor
      · rintro ⟨rfl, t, rfl⟩; exact ⟨t, rfl, rfl⟩
      · rintro ⟨t, rfl, rfl⟩; exact ⟨rfl, t, rfl⟩

theorem listHas_iff (l p : List Char) :
    listHas l p = true ↔ ∃ t u, l = t ++ p ++ u := by
  induction l with
  | nil =>
    simp only [listHas, listStarts_iff, Bool.or_eq_true]
    constructor
    · rintro (⟨t, ht⟩ | h)
      · exact ⟨[], t, by simpa using ht⟩
      · cases h
    · rintro ⟨t, u, htu⟩
      refine Or.inl ⟨u, ?_⟩
      rw [List.append_assoc] at htu
      rcases List.append_eq_nil.mp htu.symm with ⟨rfl, h2⟩
      simpa using h2.symm
  | cons a as ih =>
    rw [listHas]
    simp only [Bool.or_eq_true, listStarts_iff, ih]
    constructor
    · rintro (⟨t, ht⟩ | ⟨t, u, rfl⟩)
      · exact ⟨[], t, by simpa using ht⟩
      · exact ⟨a :: t, u, by simp⟩
    · rintro ⟨t, u, htu⟩
      cases t with
      | nil => exact Or.inl ⟨u, by simpa using htu⟩
      | cons x xs =>
        right
        simp only [List.cons_append, List.cons.injEq] at htu
        exact ⟨xs, u, htu.2⟩

/-- The function `strStarts` agrees with the declarative "p followed by a tail" reading. -/
theorem strStarts_iff (s p : String) :
    strStarts s p = true ↔ ∃ t, s.data = p.data ++ t :=
  listStarts_iff s.data p.data

/-- The function `strHas` agrees with the declarative "occurs as a contiguous run" reading. -/
theorem strHas_iff (s p : String) :
    strHas s p = true ↔ ∃ t u, s.data = t ++ p.data ++ u :=
  listHas_iff s.data p.data

end StrOps

namespace AList

variable {K V : Type} [DecidableEq K]

/-- First-match lookup in an association list (JavaScript `Map.get` /
the `SELECT ... WHERE` result of a keyed table). -/
def lookupA : List (K × V) → K → Option V
  | [], _ => none
  | (k', v') :: t, k => if k' = k then some v' else lookupA t k

/-- Replace-or-append update (JavaScript `Map.set` /
`INSERT OR REPLACE` into a table unique on the key). -/
def setA : List (K × V) → K → V → List (K × V)
  | [], k, v => [(k, v)]
  | (k', v') :: t, k, v => if k' = k then (k, v) :: t else (k', v') :: setA t k v

theorem lookupA_setA_self (l : List (K × V)) (k : K) (v : V) :
    lookupA (setA l k v) k = some v := by
  induction l with
  | nil => simp [setA, lookupA]
  | cons h t ih =>
    obtain ⟨k', v'⟩ := h
    by_cases hk : k' = k
    · simp [setA, hk, lookupA]
    · simp [setA, hk, lookupA, ih]

theorem lookupA_setA_ne (l : List (K × V)) (k k' : K) (v : V) (h : k ≠ k') :
    lookupA (setA l k v) k' = lookupA l k' := by
  induction l with
  | nil => simp [setA, lookupA, h]
  | cons hd t ih =>
    obtain ⟨k0, v0⟩ := hd
    by_cases hk : k0 = k
    · subst hk
      simp [setA, lookupA, h]
    · simp only [setA, if_neg hk, lookupA]
      by_cases hk' : k0 = k'
      · simp [hk']
      · simp [hk', ih]

end AList

namespace WalletBalance

open StrOps

/-- Model of `getFallbackDecimals(denom)` from `walletBalanceService.js`: 18 for
EVM-style denominations (single-letter `a` marker that is not the micro
`au` marker, or one of the known EVM-chain substrings), 6 otherwise. -/
def getFallbackDecimals (denom : String) : Nat :=
  if (strStarts denom "a" && !strStarts denom "au") ||
      strHas denom "planq" ||
      strHas denom "evmos" ||
      strHas denom "injective" ||
      strHas denom "canto" then
    18
  else
    6

/-- The declarative condition under which `getFallbackDecimals` answers 18:
the denom starts with `a` but not with `au`, or contains one of the four
EVM-chain name fragments as a contiguous substring. -/
def evmStyleDenom (denom : String) : Prop :=
  ((∃ t, denom.data = "a".data ++ t) ∧ ¬ ∃ t, denom.data = "au".data ++ t) ∨
    (∃ t u, denom.data = t ++ "planq".data ++ u) ∨
    (∃ t u, denom.data = t ++ "evmos".data ++ u) ∨
    (∃ t u, denom.data = t ++ "injective".data ++ u) ∨
    (∃ t u, denom.data = t ++ "canto".data ++ u)

theorem fallback_cond_iff (d : String) :
    ((strStarts d "a" && !strStarts d "au") || strHas d "planq" ||
        strHas d "evmos" || strHas d "injective" || strHas d "canto") = true ↔
      evmStyleDenom d := by
  have hau : strStarts d "au" = false ↔ ¬ ∃ t, d.data = "au".data ++ t := by
    constructor
    · intro h hex
      rw [(strStarts_iff d "au").mpr hex] at h
      cases h
    · intro h
      cases hb : strStarts d "au" with
      | false => rfl
      | true => exact absurd ((strStarts_iff d "au").mp hb) h
  simp only [Bool.or_eq_true, Bool.and_eq_true, Bool.not_eq_true', evmStyleDenom,
    strStarts_iff, strHas_iff, hau, or_assoc]

/-- Claim C6 (amended): `getFallbackDecimals` answers 18 exactly on the
EVM-style denominations (`a`-marker that is not `au`, or containing one of
the substrings `planq`, `evmos`, `injective`, `canto`) and 6 on every
other denomination. -/
theorem getFallbackDecimals_characterisation (d : String) :
    (getFallbackDecimals d = 18 ↔ evmStyleDenom d) ∧
    (getFallbackDecimals d = 6 ↔ ¬ evmStyleDenom d) := by
  by_cases hb : ((strStarts d "a" && !strStarts d "au") || strHas d "planq" ||
      strHas d "evmos" || strHas d "injective" || strHas d "canto") = true
  · have he : evmStyleDenom d := (fallback_cond_iff d).mp hb
    unfold getFallbackDecimals
    rw [if_pos hb]
    simp [he]
  · have he : ¬ evmStyleDenom d := fun h => hb ((fallback_cond_iff d).mpr h)
    unfold getFallbackDecimals
    rw [if_neg hb]
    simp [he]

/-- Claim C6 (counterexample): the denomination `ucanto` neither starts with
`a` nor with `au`, yet the fallback returns 18, not the 6 the claim
predicts for "every other denom". -/
theorem getFallbackDecimals_claim_false :
    getFallbackDecimals "ucanto" = 18 ∧
      ¬ ((∃ t, "ucanto".data = "a".data ++ t) ∧
          ¬ ∃ t, "ucanto".data = "au".data ++ t) := by
  constructor
  · rfl
  · rintro ⟨⟨t, ht⟩, -⟩
    simp at ht

/-- Environment for decimals resolution: whether the database (tier-1 cache
backing store) is reachable, and the deterministic outcomes of the two
network tiers.  `chainAPI c d = none` models "no REST endpoint configured or
every strategy failed"; `directory c d = none` models an unreachable
cosmos.directory (for which the source substitutes the heuristic fallback). -/
structure DecEnv where
  dbAvailable : Bool
  chainAPI : String → String → Option Nat
  directory : String → String → Option Nat

/-- The `token_decimals` table, unique on `(chain_id, denom)`. -/
def DecCache := List ((String × String) × Nat)

/-- Model of `getDecimalsFromDatabase(chainId, denom)`: `null` when the
database is unavailable (or errors), else the cached row. -/
def getDecimalsFromDatabase (env : DecEnv) (cache : DecCache) (chainId denom : String) :
    Option Nat :=
  if env.dbAvailable then AList.lookupA cache (chainId, denom) else none

/-- Model of `fetchDecimalsFromChainAPI(chainId, denom)`: the deterministic
outcome of the chain-native REST tier (all failures collapse to `none`). -/
def fetchDecimalsFromChainAPI (env : DecEnv) (chainId denom : String) : Option Nat :=
  env.chainAPI chainId denom

/-- Model of `fetchDecimalsFromDirectory(chainId, denom)`: on HTTP failure the
source catches and returns `getFallbackDecimals(denom)`, so this tier always
produces a value. -/
def fetchDecimalsFromDirectory (env : DecEnv) (chainId denom : String) : Nat :=
  match env.directory chainId denom with
  | some v => v
  | none => getFallbackDecimals denom

/-- Model of `saveDecimalsToDatabase(chainId, denom, decimals)`: an
`INSERT OR REPLACE` into `token_decimals`, skipped (errors swallowed) when the
database is unavailable. -/
def saveDecimalsToDatabase (env : DecEnv) (cache : DecCache) (chainId denom : String)
    (decimals : Nat) : DecCache :=
  if env.dbAvailable then AList.setA cache (chainId, denom) decimals else cache

/-- Outcome of one `getTokenDecimals` call: the returned integer, the
resulting `token_decimals` table, and whether any network tier was exercised. -/
structure DecResult where
  value : Nat
  cache : DecCache
  usedNetwork : Bool

/-- Model of `getTokenDecimals(chainId, denom)`: tier 1 database cache, then
the chain REST API, then cosmos.directory (with heuristic fallback inside),
persisting any non-cache resolution back to the database. -/
def getTokenDecimals (env : DecEnv) (cache : DecCache) (chainId denom : String) :
    DecResult :=
  match getDecimalsFromDatabase env cache chainId denom with
  | some v => ⟨v, cache, false⟩
  | none =>
    let v :=
      match fetchDecimalsFromChainAPI env chainId denom with
      | some v => v
      | none => fetchDecimalsFromDirectory env chainId denom
    ⟨v, saveDecimalsToDatabase env cache chainId denom v, true⟩

/-- Claim C5: with the database available, resolving the same
`(chainId, denom)` twice in sequence yields the same integer both times, and
the second call is a pure cache hit — no network tier runs and the cache is
unchanged — because any non-cache resolution is persisted to the cache. -/
theorem getTokenDecimals_idempotent (env : DecEnv) (cache : DecCache)
    (chainId denom : String) (hdb : env.dbAvailable = true) :
    ((getTokenDecimals env (getTokenDecimals env cache chainId denom).cache
        chainId denom).value = (getTokenDecimals env cache chainId denom).value) ∧
    ((getTokenDecimals env (getTokenDecimals env cache chainId denom).cache
        chainId denom).usedNetwork = false) ∧
    ((getTokenDecimals env (getTokenDecimals env cache chainId denom).cache
        chainId denom).cache = (getTokenDecimals env cache chainId denom).cache) := by
  cases hl : AList.lookupA cache (chainId, denom) with
  | some v =>
    have h1 : getTokenDecimals env cache chainId denom = ⟨v, cache, false⟩ := by
      unfold getTokenDecimals getDecimalsFromDatabase
      rw [hdb, if_pos rfl, hl]
    rw [h1]
    rw [h1]
    exact ⟨rfl, rfl, rfl⟩
  | none =>
    have h1 : getTokenDecimals env cache chainId denom =
        ⟨(match fetchDecimalsFromChainAPI env chainId denom with
          | some v => v
          | none => fetchDecimalsFromDirectory env chainId denom),
         saveDecimalsToDatabase env cache chainId denom
          (match fetchDecimalsFromChainAPI env chainId denom with
           | some v => v
           | none => fetchDecimalsFromDirectory env chainId denom),
         true⟩ := by
      unfold getTokenDecimals getDecimalsFromDatabase
      rw [hdb, if_pos rfl, hl]
    set v1 := (match fetchDecimalsFromChainAPI env chainId denom with
      | some v => v
      | none => fetchDecimalsFromDirectory env chainId denom) with hv1
    have h2 : getTokenDecimals env
        (saveDecimalsToDatabase env cache chainId denom v1) chainId denom =
        ⟨v1, saveDecimalsToDatabase env cache chainId denom v1, false⟩ := by
      unfold getTokenDecimals getDecimalsFromDatabase saveDecimalsToDatabase
      rw [hdb, if_pos rfl, if_pos rfl, AList.lookupA_setA_self]
    rw [h1, h2]
    exact ⟨rfl, rfl, rfl⟩

/-- Concrete environment for the C5 witness: database reachable, both
network tiers failing (so resolution lands on the heuristic fallback). -/
def decEnvWitness : DecEnv :=
  { dbAvailable := true
    chainAPI := fun _ _ => none
    directory := fun _ _ => none }

/-- Witness for claim C5 at a concrete chain and denom. -/
theorem getTokenDecimals_idempotent_witness :
    ((getTokenDecimals decEnvWitness
        (getTokenDecimals decEnvWitness [] "osmosis-1" "uosmo").cache
        "osmosis-1" "uosmo").value =
      (getTokenDecimals decEnvWitness [] "osmosis-1" "uosmo").value) ∧
    ((getTokenDecimals decEnvWitness
        (getTokenDecimals decEnvWitness [] "osmosis-1" "uosmo").cache
        "osmosis-1" "uosmo").usedNetwork = false) ∧
    ((getTokenDecimals decEnvWitness
        (getTokenDecimals decEnvWitness [] "osmosis-1" "uosmo").cache
        "osmosis-1" "uosmo").cache =
      (getTokenDecimals decEnvWitness [] "osmosis-1" "uosmo").cache) :=
  getTokenDecimals_idempotent decEnvWitness [] "osmosis-1" "uosmo" rfl

/-- Exact rational quotient `a / b`, written with `Rat.divInt` so that it
evaluates by kernel reduction (the `Div ℚ` instance is irreducible); the
lemma `ratDiv_eq_div` shows it is the field division on `ℚ`. -/
def ratDiv (a b : ℚ) : ℚ := Rat.divInt (a.num * b.den) (a.den * b.num)

theorem ratDiv_eq_div (a b : ℚ) : ratDiv a b = a / b := by
  unfold ratDiv
  rw [Rat.divInt_eq_div]
  rcases eq_or_ne b 0 with rfl | hb
  · simp
  · have hbn : (b.num : ℚ) ≠ 0 := by exact_mod_cast Rat.num_ne_zero.mpr hb
    have had : (a.den : ℚ) ≠ 0 := by exact_mod_cast a.den_nz
    have ha : (a.num : ℚ) = a * a.den := (div_eq_iff had).mp (Rat.num_div_den a)
    have hb2 : (b.num : ℚ) = b * b.den := by
      have hbd : (b.den : ℚ) ≠ 0 := by exact_mod_cast b.den_nz
      exact (div_eq_iff hbd).mp (Rat.num_div_den b)
    push_cast
    rw [div_eq_div_iff (by exact mul_ne_zero had hbn) hb, ha, hb2]
    ring

/-- Round `a / b` (with `b > 0`) to the nearest natural number, ties to even. -/
def rndNearEven (a b : Nat) : Nat :=
  let q := a / b
  let r := a % b
  if 2 * r < b then q
  else if b < 2 * r then q + 1
  else if q % 2 = 0 then q else q + 1

/-- Scale a positive rational `n / d` into the binade `[2^52, 2^53)` by
doubling the numerator or denominator, tracking the power-of-two shift so
that the represented value `(n / d) * 2^s` is preserved.  The fuel bound is
far above any magnitude reachable in this development. -/
def fpNormalize : Nat → Nat → Nat → Int → Nat × Nat × Int
  | 0, n, d, s => (n, d, s)
  | fuel + 1, n, d, s =>
    if n < 2 ^ 52 * d then fpNormalize fuel (2 * n) d (s - 1)
    else if 2 ^ 53 * d ≤ n then fpNormalize fuel n (2 * d) (s + 1)
    else (n, d, s)

/-- The dyadic rational obtained by rounding the positive rational `n / d`
to 53 significant bits (round to nearest, ties to even). -/
def fpRoundPos (n d : Nat) : ℚ :=
  let t := fpNormalize 1200 n d 0
  let m := rndNearEven t.1 t.2.1
  if 0 ≤ t.2.2 then ((m * 2 ^ t.2.2.toNat : Nat) : ℚ)
  else mkRat m (2 ^ (-t.2.2).toNat)

/-- Round a rational to the nearest IEEE-754 binary64 value (round to
nearest, ties to even; the overflow/subnormal range is never reached by the
balances considered here). -/
def fpRound (q : ℚ) : ℚ :=
  if q = 0 then 0
  else if 0 < q then fpRoundPos q.num.toNat q.den
  else -fpRoundPos (-q.num).toNat q.den

/-- Exact rational value of a decimal digit string with an optional single
dot, the shape matched by the metrics regex `\d+(\.\d+)?`; `none` on any
other shape. -/
def parseDecimalChars : List Char → Option ℚ
  | cs =>
    let intPart := cs.takeWhile fun c => c.isDigit
    let rest := cs.dropWhile fun c => c.isDigit
    if intPart.isEmpty then none
    else
      let iv : Nat := intPart.foldl (fun a c => 10 * a + (c.toNat - 48)) 0
      match rest with
      | [] => some (iv : ℚ)
      | '.' :: frac =>
        if frac.isEmpty ∨ frac.any fun c => !c.isDigit then none
        else
          let fv : Nat := frac.foldl (fun a c => 10 * a + (c.toNat - 48)) 0
          some (mkRat (iv * 10 ^ frac.length + fv) (10 ^ frac.length))
      | _ => none

/-- Model of JavaScript `parseFloat` on the numeral strings produced by the
metrics regex: the decimal value, correctly rounded to binary64. -/
def parseFloatNum (s : String) : Option ℚ :=
  (parseDecimalChars s.data).map fpRound

/-- Model of `Math.pow(10, decimals)`: the binary64 value of `10^decimals`
(exact for every exponent up to 22, hence for all token decimals). -/
def pow10fp (decimals : Nat) : ℚ :=
  fpRound (((10 ^ decimals : Nat) : ℚ))

/-- Model of `convertToHumanReadable(rawValue, decimals)` from
`walletBalanceService.js`: `parseFloat(rawValue) / Math.pow(10, decimals)`
in binary64 arithmetic (the quotient is correctly rounded). -/
def convertToHumanReadable (rawValue : String) (decimals : Nat) : Option ℚ :=
  (parseFloatNum rawValue).map fun v => fpRound (ratDiv v (pow10fp decimals))

/-- Claim C1 (counterexample): `convertToHumanReadable` does not compute
`V / 10^D` exactly.  At the 19-digit raw value `1000000000000000001` with
`decimals = 0` the final unit digit is lost to binary64 rounding, and even at
the spec's own first example the exact quotient `12261010 / 10^6` is not a
binary64 value, so the result only approximates it. -/
theorem convertToHumanReadable_claim_false :
    convertToHumanReadable "1000000000000000001" 0 ≠
      some ((1000000000000000001 : ℚ) / 10 ^ 0) ∧
    convertToHumanReadable "12261010" 6 ≠ some ((12261010 : ℚ) / 10 ^ 6) := by
  constructor
  · rw [show ((1000000000000000001 : ℚ) / 10 ^ 0) =
        ((1000000000000000001 : Nat) : ℚ) from by norm_num]
    decide
  · rw [show ((12261010 : ℚ) / 10 ^ 6) = mkRat 12261010 1000000 from by
        norm_num [mkRat]]
    decide

/-- Claim C1 (amended): `convertToHumanReadable(V, D)` computes
`parseFloat(V) / Math.pow(10, D)` in IEEE binary64 arithmetic, not exactly.
On the spec's two examples the result is the binary64 value nearest the exact
quotient `V / 10^D` (whose shortest decimal representations are `12.26101`
and `103.06121668731532`), while a raw value needing more than 53 significand
bits, such as `1000000000000000001` with `D = 0`, loses precision and comes
back as `1000000000000000000`. -/
theorem convertToHumanReadable_binary64 :
    convertToHumanReadable "12261010" 6 =
      some (fpRound ((12261010 : ℚ) / 10 ^ 6)) ∧
    convertToHumanReadable "103061216687315320000" 18 =
      some (fpRound ((103061216687315320000 : ℚ) / 10 ^ 18)) ∧
    convertToHumanReadable "1000000000000000001" 0 =
      some (1000000000000000000 : ℚ) := by
  refine ⟨?_, ?_, ?_⟩
  · rw [show ((12261010 : ℚ) / 10 ^ 6) = mkRat 12261010 1000000 from by
        norm_num [mkRat]]
    decide
  · rw [show ((103061216687315320000 : ℚ) / 10 ^ 18) =
        mkRat 103061216687315320000 1000000000000000000 from by norm_num [mkRat]]
    decide
  · decide

/-- One raw balance record parsed from a `wallet_balance{...}` metrics line. -/
structure Balance where
  account : String
  chain : String
  denom : String
  rawValue : String
deriving DecidableEq

/-- Environment of one collection cycle.  `attempt i` is the outcome of the
`i`-th `fetchWalletBalanceMetricsWithRetry` call: `none` when it throws
(all timeout strategies failed), `some bs` when it returns the parsed list
`bs`.  `process b` is the outcome of `processWalletBalance b`: `none` when
the record fails and is filtered out by the `Promise.allSettled` handling,
`some b'` when it yields a processed record. -/
structure CollectEnv where
  attempt : Nat → Option (List Balance)
  process : Balance → Option Balance

/-- Observable outcome of a `collectAndProcessBalances()` call: the returned
list, the `isCollecting` flag afterwards, and effect counters (number of
fetch attempts, of per-record database balance writes, of WebSocket
broadcasts). -/
structure CollectOut where
  result : List Balance
  isCollecting : Bool
  fetches : Nat
  dbWrites : Nat
  broadcasts : Nat
deriving DecidableEq

/-- The retry loop of `collectAndProcessBalances` (`while retryCount <=
this.maxRetries`), entered with `isCollecting = true`.  Each iteration
fetches; a successful fetch with an empty list returns `[]` early — without
clearing `isCollecting` (the flag assignment at the end of the success path
is skipped); a successful non-empty fetch processes each record, writes the
processed ones to the database, broadcasts once, clears the flag and
returns; a throwing fetch consumes one attempt and retries, and exhausting
all attempts clears the flag and returns `[]`. -/
def collectLoop (env : CollectEnv) : Nat → Nat → CollectOut
  | _, 0 => ⟨[], false, 0, 0, 0⟩
  | idx, fuel + 1 =>
    match env.attempt idx with
    | some bs =>
      if bs.isEmpty then ⟨[], true, 1, 0, 0⟩
      else
        let processed := bs.filterMap env.process
        ⟨processed, false, 1, processed.length, 1⟩
    | none =>
      let rest := collectLoop env (idx + 1) fuel
      ⟨rest.result, rest.isCollecting, rest.fetches + 1, rest.dbWrites,
        rest.broadcasts⟩

/-- The `maxRetries` field of `WalletBalanceService` (3, so up to 4 loop
iterations). -/
def maxRetries : Nat := 3

/-- Model of `collectAndProcessBalances()`: when a collection is already in
flight the call returns `[]` immediately with no effects (and the in-flight
flag, owned by the other call, still set); otherwise it sets the flag and
runs the retry loop. -/
def collectAndProcessBalances (isCollecting : Bool) (env : CollectEnv) :
    CollectOut :=
  if isCollecting then ⟨[], true, 0, 0, 0⟩
  else collectLoop env 0 (maxRetries + 1)

/-- Claim C4: a `collectAndProcessBalances` call made while a collection is
in flight returns the empty result at once and performs no fetch, no
processing, no database write and no broadcast. -/
theorem collect_single_flight (env : CollectEnv) :
    collectAndProcessBalances true env = ⟨[], true, 0, 0, 0⟩ :=
  rfl

/-- Claim C3 (the code violates it): when the fetch succeeds but parses zero
balances, `collectAndProcessBalances` returns `[]` through the early-return
at the empty check, which skips the `isCollecting = false` assignment, so
the orchestrator stays stuck in the Collecting state; the success and
retries-exhausted paths do clear the flag. -/
theorem collect_empty_leaves_flag_set :
    (collectAndProcessBalances false
        ⟨fun _ => some [], fun b => some b⟩).isCollecting = true ∧
    (collectAndProcessBalances false
        ⟨fun _ => some [⟨"a", "c", "d", "1"⟩], fun b => some b⟩).isCollecting
        = false ∧
    (collectAndProcessBalances false
        ⟨fun _ => none, fun b => some b⟩).isCollecting = false := by
  refine ⟨rfl, rfl, rfl⟩

end WalletBalance

namespace AlertMgr

/-- An alert handed to `processAlert`: type, optional chain, severity,
message, and the optional `data.object.dst_client_id` discriminator that
`generateAlertKey` folds into the deduplication key. -/
structure Alert where
  type : String
  chain : Option String
  severity : String
  message : String
  dstClientId : Option String
deriving DecidableEq

/-- Model of `generateAlertKey(alert)`: `type : (chain || 'global') :
severity`, extended with `data.object.dst_client_id` when present, joined
with `:`. -/
def generateAlertKey (a : Alert) : String :=
  String.intercalate ":"
    ([a.type, a.chain.getD "global", a.severity] ++
      match a.dstClientId with
      | some c => [c]
      | none => [])

/-- Which step of a `processAlert` run throws, if any: step 0 is
`db.saveAlert`, step 1 `sendNotifications`, step 2 `broadcastAlert`.
`none` means every step completes. -/
def FailAt := Option Nat

/-- In-memory and persistent state touched by `processAlert`: the
`alertHistory` dedup map (key to last-sent epoch milliseconds), the
append-only `alert_history` table, and counters of notification fan-outs
and WebSocket broadcasts. -/
structure AMState where
  alertHistory : List (String × Nat)
  savedAlerts : List Alert
  dispatches : Nat
  broadcasts : Nat
deriving DecidableEq

/-- Model of `processAlert(alert)` at time `now`.  A key seen within the
last five minutes (and with a truthy timestamp) returns `false` before any
persistence or dispatch.  Otherwise the steps run in source order —
`db.saveAlert`, `sendNotifications`, `broadcastAlert`, then
`alertHistory.set` — and a throw at any step lands in the `catch`, which
returns `false` with the dedup map untouched. -/
def processAlert (failAt : FailAt) (st : AMState) (a : Alert) (now : Nat) :
    Bool × AMState :=
  if (match AList.lookupA st.alertHistory (generateAlertKey a) with
      | some lastSent => lastSent ≠ 0 && now - lastSent < 5 * 60 * 1000
      | none => false) then
    (false, st)
  else
    match failAt with
    | some 0 => (false, st)
    | some 1 => (false, { st with savedAlerts := st.savedAlerts ++ [a] })
    | some 2 =>
      (false, { st with
        savedAlerts := st.savedAlerts ++ [a]
        dispatches := st.dispatches + 1 })
    | _ =>
      (true,
        { alertHistory := AList.setA st.alertHistory (generateAlertKey a) now
          savedAlerts := st.savedAlerts ++ [a]
          dispatches := st.dispatches + 1
          broadcasts := st.broadcasts + 1 })

/-- Claim C2 (counterexample): two `processAlert` calls with the same alert
1 minute apart.  The first persists and dispatches; the second is
deduplicated and — contrary to the claim — does not persist either: only
one AlertRecord is in the history, not two. -/
theorem processAlert_dup_no_persist :
    ((processAlert none
        (processAlert none ⟨[], [], 0, 0⟩
          ⟨"low_balance", some "osmosis-1", "warning", "m", none⟩ 1000).2
        ⟨"low_balance", some "osmosis-1", "warning", "m", none⟩ 61000).2.savedAlerts.length
      ≠ 2) ∧
    ((processAlert none
        (processAlert none ⟨[], [], 0, 0⟩
          ⟨"low_balance", some "osmosis-1", "warning", "m", none⟩ 1000).2
        ⟨"low_balance", some "osmosis-1", "warning", "m", none⟩ 61000).2.savedAlerts.length
      = 1) := by
  refine ⟨by decide, by decide⟩

/-- Claim C2 (amended): for two `processAlert` calls with the same dedup key
within five minutes, only the first dispatches notifications and only the
first persists an AlertRecord — the duplicate returns `false` before
saving, so exactly one record and exactly one dispatch result from the
pair. -/
theorem processAlert_dedup_split (st : AMState) (a : Alert) (t1 t2 : Nat)
    (hnew : AList.lookupA st.alertHistory (generateAlertKey a) = none)
    (ht1 : t1 ≠ 0) (hwin : t2 - t1 < 5 * 60 * 1000) :
    ((processAlert none st a t1).1 = true) ∧
    ((processAlert none (processAlert none st a t1).2 a t2).1 = false) ∧
    ((processAlert none st a t1).2.savedAlerts = st.savedAlerts ++ [a]) ∧
    ((processAlert none (processAlert none st a t1).2 a t2).2.savedAlerts =
      st.savedAlerts ++ [a]) ∧
    ((processAlert none st a t1).2.dispatches = st.dispatches + 1) ∧
    ((processAlert none (processAlert none st a t1).2 a t2).2.dispatches =
      st.dispatches + 1) := by
  have h1 : processAlert none st a t1 =
      (true,
        { alertHistory := AList.setA st.alertHistory (generateAlertKey a) t1
          savedAlerts := st.savedAlerts ++ [a]
          dispatches := st.dispatches + 1
          broadcasts := st.broadcasts + 1 }) := by
    unfold processAlert
    rw [hnew]
    rfl
  have h2 : processAlert none (processAlert none st a t1).2 a t2 =
      (false, (processAlert none st a t1).2) := by
    rw [h1]
    simp [processAlert, AList.lookupA_setA_self, ht1, hwin]
  rw [h1] at h2 ⊢
  rw [h2]
  exact ⟨rfl, rfl, rfl, rfl, rfl, rfl⟩

/-- Witness for claim C2 (amended) at a concrete alert and times. -/
theorem processAlert_dedup_split_witness :
    ((processAlert none ⟨[], [], 0, 0⟩
        ⟨"low_balance", some "osmosis-1", "warning", "m", none⟩ 1000).1 = true) ∧
    ((processAlert none
        (processAlert none ⟨[], [], 0, 0⟩
          ⟨"low_balance", some "osmosis-1", "warning", "m", none⟩ 1000).2
        ⟨"low_balance", some "osmosis-1", "warning", "m", none⟩ 61000).1 = false) ∧
    ((processAlert none ⟨[], [], 0, 0⟩
        ⟨"low_balance", some "osmosis-1", "warning", "m", none⟩ 1000).2.savedAlerts =
      ([] : List Alert) ++ [⟨"low_balance", some "osmosis-1", "warning", "m", none⟩]) ∧
    ((processAlert none
        (processAlert none ⟨[], [], 0, 0⟩
          ⟨"low_balance", some "osmosis-1", "warning", "m", none⟩ 1000).2
        ⟨"low_balance", some "osmosis-1", "warning", "m", none⟩ 61000).2.savedAlerts =
      ([] : List Alert) ++ [⟨"low_balance", some "osmosis-1", "warning", "m", none⟩]) ∧
    ((processAlert none ⟨[], [], 0, 0⟩
        ⟨"low_balance", some "osmosis-1", "warning", "m", none⟩ 1000).2.dispatches =
      0 + 1) ∧
    ((processAlert none
        (processAlert none ⟨[], [], 0, 0⟩
          ⟨"low_balance", some "osmosis-1", "warning", "m", none⟩ 1000).2
        ⟨"low_balance", some "osmosis-1", "warning", "m", none⟩ 61000).2.dispatches =
      0 + 1) :=
  processAlert_dedup_split ⟨[], [], 0, 0⟩
    ⟨"low_balance", some "osmosis-1", "warning", "m", none⟩ 1000 61000
    rfl (by decide) (by decide)

/-- Claim C10: if saving, notifying or broadcasting throws, `processAlert`
returns `false` and the dedup map is unchanged, so a later occurrence of
the same (previously unseen) alert condition is not suppressed: the retry
succeeds. -/
theorem processAlert_failure_preserves_dedup (f : Nat) (hf : f ≤ 2)
    (st : AMState) (a : Alert) (now now2 : Nat)
    (hnew : AList.lookupA st.alertHistory (generateAlertKey a) = none) :
    ((processAlert (some f) st a now).1 = false) ∧
    ((processAlert (some f) st a now).2.alertHistory = st.alertHistory) ∧
    ((processAlert none (processAlert (some f) st a now).2 a now2).1 = true) := by
  have hdup : (match AList.lookupA st.alertHistory (generateAlertKey a) with
      | some lastSent => lastSent ≠ 0 && now - lastSent < 5 * 60 * 1000
      | none => false) = false := by
    rw [hnew]
  interval_cases f
  · have h1 : processAlert (some 0) st a now = (false, st) := by
      unfold processAlert
      rw [hnew]
      rfl
    rw [h1]
    have h2 : processAlert none st a now2 =
        (true,
          { alertHistory := AList.setA st.alertHistory (generateAlertKey a) now2
            savedAlerts := st.savedAlerts ++ [a]
            dispatches := st.dispatches + 1
            broadcasts := st.broadcasts + 1 }) := by
      unfold processAlert
      rw [hnew]
      rfl
    rw [h2]
    exact ⟨rfl, rfl, rfl⟩
  · have h1 : processAlert (some 1) st a now =
        (false, { st with savedAlerts := st.savedAlerts ++ [a] }) := by
      unfold processAlert
      rw [hnew]
      rfl
    rw [h1]
    have h2 : processAlert none { st with savedAlerts := st.savedAlerts ++ [a] }
        a now2 =
        (true,
          { alertHistory := AList.setA st.alertHistory (generateAlertKey a) now2
            savedAlerts := (st.savedAlerts ++ [a]) ++ [a]
            dispatches := st.dispatches + 1
            broadcasts := st.broadcasts + 1 }) := by
      unfold processAlert
      rw [show ({ st with savedAlerts := st.savedAlerts ++ [a] } :
          AMState).alertHistory = st.alertHistory from rfl]
      rw [hnew]
      rfl
    rw [h2]
    exact ⟨rfl, rfl, rfl⟩
  · have h1 : processAlert (some 2) st a now =
        (false, { st with
          savedAlerts := st.savedAlerts ++ [a]
          dispatches := st.dispatches + 1 }) := by
      unfold processAlert
      rw [hnew]
      rfl
    rw [h1]
    have h2 : processAlert none { st with
        savedAlerts := st.savedAlerts ++ [a]
        dispatches := st.dispatches + 1 } a now2 =
        (true,
          { alertHistory := AList.setA st.alertHistory (generateAlertKey a) now2
            savedAlerts := (st.savedAlerts ++ [a]) ++ [a]
            dispatches := st.dispatches + 1 + 1
            broadcasts := st.broadcasts + 1 }) := by
      unfold processAlert
      rw [show ({ st with
          savedAlerts := st.savedAlerts ++ [a]
          dispatches := st.dispatches + 1 } : AMState).alertHistory =
          st.alertHistory from rfl]
      rw [hnew]
      rfl
    rw [h2]
    exact ⟨rfl, rfl, rfl⟩

/-- Witness for claim C10 at a concrete failing step and alert. -/
theorem processAlert_failure_preserves_dedup_witness :
    ((processAlert (some 0) ⟨[], [], 0, 0⟩
        ⟨"source_connectivity", none, "critical", "down", none⟩ 1000).1 = false) ∧
    ((processAlert (some 0) ⟨[], [], 0, 0⟩
        ⟨"source_connectivity", none, "critical", "down", none⟩ 1000).2.alertHistory
      = ([] : List (String × Nat))) ∧
    ((processAlert none
        (processAlert (some 0) ⟨[], [], 0, 0⟩
          ⟨"source_connectivity", none, "critical", "down", none⟩ 1000).2
        ⟨"source_connectivity", none, "critical", "down", none⟩ 2000).1 = true) :=
  processAlert_failure_preserves_dedup 0 (by decide) ⟨[], [], 0, 0⟩
    ⟨"source_connectivity", none, "critical", "down", none⟩ 1000 2000 rfl

/-- A user's parsed `alert_thresholds` JSON: the fields `shouldSendAlert`
reads.  `none` models an absent (or falsy / non-array) field. -/
structure Thresholds where
  minSeverity : Option String
  disabledTypes : Option (List String)
  disabledChains : Option (List String)
deriving DecidableEq

/-- A row of the notification-settings join that `sendNotifications` hands
to `shouldSendAlert`; `none` in `gotifyUrl` / `gotifyToken` models a falsy
column, `none` in `thresholds` models absent or unparseable JSON (which the
source replaces by `{}`). -/
structure NotifUser where
  isEnabled : Bool
  gotifyUrl : Option String
  gotifyToken : Option String
  thresholds : Option Thresholds
deriving DecidableEq

/-- The `severityLevels` table of `shouldSendAlert`; `none` for a string
outside the table (JavaScript `undefined`). -/
def severityLevel (s : String) : Option Nat :=
  if s = "info" then some 1
  else if s = "warning" then some 2
  else if s = "critical" then some 3
  else none

/-- JavaScript `<` on possibly-`undefined` numbers: any comparison with
`undefined` is false. -/
def jsLt : Option Nat → Option Nat → Bool
  | some x, some y => x < y
  | _, _ => false

/-- Model of `shouldSendAlert(alert, user)`: notifications must be enabled
and the channel configured; the alert severity must not rank below the
user's minimum (default `warning`); the alert type must not be in
`disabledTypes`; for a chain-scoped alert the chain must not be in
`disabledChains`. -/
def shouldSendAlert (a : Alert) (u : NotifUser) : Bool :=
  if !u.isEnabled || u.gotifyUrl.isNone || u.gotifyToken.isNone then false
  else
    if jsLt (severityLevel a.severity)
        (severityLevel (((u.thresholds.getD ⟨none, none, none⟩).minSeverity).getD
          "warning")) then false
    else
      if (match (u.thresholds.getD ⟨none, none, none⟩).disabledTypes with
          | some l => l.contains a.type
          | none => false) then false
      else
        if (match a.chain, (u.thresholds.getD ⟨none, none, none⟩).disabledChains with
            | some c, some l => l.contains c
            | _, _ => false) then false
        else true

/-- Claim C7: for a subscriber whose effective minimum severity is
`warning`, an `info` alert is never sent, and a `warning` or `critical`
alert is sent whenever the remaining gates pass (enabled, channel
configured, type not disabled, chain not disabled). -/
theorem shouldSendAlert_warning_gate (a : Alert) (u : NotifUser)
    (hmin : ((u.thresholds.getD ⟨none, none, none⟩).minSeverity).getD "warning"
      = "warning") :
    (a.severity = "info" → shouldSendAlert a u = false) ∧
    ((a.severity = "warning" ∨ a.severity = "critical") →
      u.isEnabled = true →
      u.gotifyUrl.isSome →
      u.gotifyToken.isSome →
      (∀ l, (u.thresholds.getD ⟨none, none, none⟩).disabledTypes = some l →
        l.contains a.type = false) →
      (∀ c l, a.chain = some c →
        (u.thresholds.getD ⟨none, none, none⟩).disabledChains = some l →
        l.contains c = false) →
      shouldSendAlert a u = true) := by
  constructor
  · intro hsev
    unfold shouldSendAlert
    by_cases hgate : (!u.isEnabled || u.gotifyUrl.isNone || u.gotifyToken.isNone)
        = true
    · rw [if_pos hgate]
    · rw [if_neg hgate, hmin, hsev]
      rw [show jsLt (severityLevel "info") (severityLevel "warning") = true from
        rfl]
      rw [if_pos rfl]
  · intro hsev hen hurl htok htypes hchains
    unfold shouldSendAlert
    have hgate : (!u.isEnabled || u.gotifyUrl.isNone || u.gotifyToken.isNone)
        = false := by
      rw [hen]
      rcases Option.isSome_iff_exists.mp hurl with ⟨x, hx⟩
      rcases Option.isSome_iff_exists.mp htok with ⟨y, hy⟩
      rw [hx, hy]
      rfl
    rw [hgate]
    simp only [Bool.false_eq_true, if_false]
    have hlt : jsLt (severityLevel a.severity)
        (severityLevel (((u.thresholds.getD ⟨none, none, none⟩).minSeverity).getD
          "warning")) = false := by
      rw [hmin]
      rcases hsev with h | h <;> rw [h] <;> rfl
    rw [hlt]
    simp only [Bool.false_eq_true, if_false]
    have htype : (match (u.thresholds.getD ⟨none, none, none⟩).disabledTypes with
        | some l => l.contains a.type
        | none => false) = false := by
      cases hdt : (u.thresholds.getD ⟨none, none, none⟩).disabledTypes with
      | none => rfl
      | some l => exact htypes l hdt
    rw [htype]
    simp only [Bool.false_eq_true, if_false]
    have hchain : (match a.chain,
        (u.thresholds.getD ⟨none, none, none⟩).disabledChains with
        | some c, some l => l.contains c
        | _, _ => false) = false := by
      cases hc : a.chain with
      | none => cases (u.thresholds.getD ⟨none, none, none⟩).disabledChains <;> rfl
      | some c =>
        cases hdc : (u.thresholds.getD ⟨none, none, none⟩).disabledChains with
        | none => rfl
        | some l => exact hchains c l hc hdc
    rw [hchain]
    rfl

/-- Witness for claim C7: an enabled subscriber with default thresholds and
a `warning` alert. -/
theorem shouldSendAlert_warning_gate_witness :
    shouldSendAlert ⟨"low_balance", some "osmosis-1", "warning", "m", none⟩
      ⟨true, some "https://gotify.example", some "tok", none⟩ = true :=
  (shouldSendAlert_warning_gate
      ⟨"low_balance", some "osmosis-1", "warning", "m", none⟩
      ⟨true, some "https://gotify.example", some "tok", none⟩ rfl).2
    (Or.inl rfl) rfl rfl rfl (fun l hl => by cases hl) (fun c l hc hl => by cases hl)

end AlertMgr

namespace WsHub

/-- A connected client's record as stored in the hub's `clients` map: the
authenticated user's role and the `subscriptions` set. -/
structure Client where
  role : String
  subscriptions : List String
deriving DecidableEq

/-- A frame the server sends back on a subscribe request. -/
inductive Frame where
  | error (message : String)
  | subscriptionConfirmed (channel : String) (subscribed : Bool)
deriving DecidableEq

/-- The `allowedChannels` list of `handleSubscription`. -/
def allowedChannels : List String :=
  ["metrics", "alerts", "system_status", "chain_updates", "worker_updates"]

/-- JavaScript `Set.prototype.add` on the subscription set. -/
def setAdd (l : List String) (c : String) : List String :=
  if l.contains c then l else l ++ [c]

theorem setAdd_contains (l : List String) (c : String) :
    (setAdd l c).contains c = true := by
  unfold setAdd
  split
  · assumption
  · simp

/-- Model of `handleSubscription(clientId, data, clients)`: unknown channels
are rejected; `system_status` is rejected for non-admin roles with an
explicit error frame and no change to the subscription set; otherwise the
channel is added and a confirmation frame is sent. -/
def handleSubscription (cl : Client) (channel : String) : Frame × Client :=
  if !(allowedChannels.contains channel) then
    (Frame.error "Invalid subscription channel", cl)
  else if channel = "system_status" ∧ cl.role ≠ "admin" then
    (Frame.error "Insufficient permissions for this channel", cl)
  else
    (Frame.subscriptionConfirmed channel true,
      { cl with subscriptions := setAdd cl.subscriptions channel })

/-- Claim C8: a non-admin client subscribing to `system_status` gets an
explicit error frame and its client record — in particular its subscription
set — is unchanged, while an admin client gets a confirmation frame and
`system_status` lands in its subscription set. -/
theorem handleSubscription_admin_channel (cl adminCl : Client)
    (hrole : cl.role ≠ "admin") (hadmin : adminCl.role = "admin") :
    ((handleSubscription cl "system_status").1 =
      Frame.error "Insufficient permissions for this channel") ∧
    ((handleSubscription cl "system_status").2 = cl) ∧
    ((handleSubscription adminCl "system_status").1 =
      Frame.subscriptionConfirmed "system_status" true) ∧
    ((handleSubscription adminCl "system_status").2.subscriptions.contains
      "system_status" = true) := by
  have hallowed : (!(allowedChannels.contains "system_status")) = false := rfl
  have h1 : handleSubscription cl "system_status" =
      (Frame.error "Insufficient permissions for this channel", cl) := by
    unfold handleSubscription
    rw [hallowed]
    rw [if_neg (by simp)]
    rw [if_pos ⟨rfl, hrole⟩]
  have h2 : handleSubscription adminCl "system_status" =
      (Frame.subscriptionConfirmed "system_status" true,
        { adminCl with
          subscriptions := setAdd adminCl.subscriptions "system_status" }) := by
    unfold handleSubscription
    rw [hallowed]
    rw [if_neg (by simp)]
    rw [if_neg fun h => h.2 hadmin]
  rw [h1, h2]
  exact ⟨rfl, rfl, rfl, setAdd_contains adminCl.subscriptions "system_status"⟩

/-- Witness for claim C8 at concrete viewer and admin clients. -/
theorem handleSubscription_admin_channel_witness :
    ((handleSubscription ⟨"user", []⟩ "system_status").1 =
      Frame.error "Insufficient permissions for this channel") ∧
    ((handleSubscription ⟨"user", []⟩ "system_status").2 = ⟨"user", []⟩) ∧
    ((handleSubscription ⟨"admin", ["alerts"]⟩ "system_status").1 =
      Frame.subscriptionConfirmed "system_status" true) ∧
    ((handleSubscription ⟨"admin", ["alerts"]⟩
        "system_status").2.subscriptions.contains "system_status" = true) :=
  handleSubscription_admin_channel ⟨"user", []⟩ ⟨"admin", ["alerts"]⟩
    (by decide) rfl

end WsHub

namespace Db

/-- A `balance_history` row as inserted by `updateWalletBalance`: old and
new balances, the absolute change, and the change direction. -/
structure HistEntry where
  oldBalance : ℚ
  newBalance : ℚ
  changeAmount : ℚ
  changeType : String
deriving DecidableEq

/-- The observable outcome of `updateWalletBalance`: the balance now stored
in the `wallet_balances` row (always overwritten), the optional history
insert, and the `{oldBalance, newBalance, changeAmount}` record the method
returns. -/
structure UpdateResult where
  storedBalance : ℚ
  historyEntry : Option HistEntry
  oldBalance : ℚ
  newBalance : ℚ
  changeAmount : ℚ
deriving DecidableEq

/-- Model of `updateWalletBalance(walletId, denom, balance, blockHeight)`
from `database.js`, for one `(walletId, denom)` row whose current balance is
`current` (`none` when the row does not exist yet, read as 0).  Numeric
values are modelled as exact rationals; the branch structure — upsert the
current row, then insert a history row only when `|new - old|` exceeds the
`0.000001` epsilon, with direction `increase` exactly when the signed change
is positive — mirrors the source. -/
def updateWalletBalance (current : Option ℚ) (balance : ℚ) : UpdateResult :=
  { storedBalance := balance
    historyEntry :=
      if |balance - current.getD 0| > 1 / 1000000 then
        some
          { oldBalance := current.getD 0
            newBalance := balance
            changeAmount := |balance - current.getD 0|
            changeType :=
              if 0 < balance - current.getD 0 then "increase" else "decrease" }
      else none
    oldBalance := current.getD 0
    newBalance := balance
    changeAmount := balance - current.getD 0 }

/-- Claim C9: the current-balance row is always overwritten with the new
balance; a history entry is appended iff the absolute change exceeds 1e-6;
any appended entry carries the old balance, the new balance, the absolute
delta, and direction `increase` exactly when the new balance is greater
than the old (`decrease` otherwise). -/
theorem updateWalletBalance_history (current : Option ℚ) (b : ℚ) :
    ((updateWalletBalance current b).storedBalance = b) ∧
    ((updateWalletBalance current b).historyEntry.isSome ↔
      |b - current.getD 0| > 1 / 1000000) ∧
    (∀ e, (updateWalletBalance current b).historyEntry = some e →
      e.oldBalance = current.getD 0 ∧ e.newBalance = b ∧
      e.changeAmount = |b - current.getD 0| ∧
      e.changeType = if current.getD 0 < b then "increase" else "decrease") := by
  refine ⟨rfl, ?_, ?_⟩
  · unfold updateWalletBalance
    by_cases hc : |b - current.getD 0| > 1 / 1000000
    · rw [if_pos hc]
      exact iff_of_true rfl hc
    · rw [if_neg hc]
      exact iff_of_false (by simp) hc
  · intro e he
    unfold updateWalletBalance at he
    split at he
    · rw [Option.some_inj] at he
      subst he
      refine ⟨rfl, rfl, rfl, ?_⟩
      rcases lt_trichotomy (current.getD 0) b with h | h | h
      · rw [if_pos (sub_pos.mpr h), if_pos h]
      · rw [h]
        simp
      · rw [if_neg (not_lt.mpr (sub_nonpos.mpr (le_of_lt h))),
          if_neg (not_lt.mpr (le_of_lt h))]
    · cases he

/-- Witness for claim C9: updating a wallet whose stored balance is 5 to 3
overwrites the row and appends a `decrease` entry with delta 2. -/
theorem updateWalletBalance_history_witness :
    ((updateWalletBalance (some 5) 3).storedBalance = 3) ∧
    ((updateWalletBalance (some 5) 3).historyEntry =
      some ⟨5, 3, 2, "decrease"⟩) := by
  have h := updateWalletBalance_history (some 5) 3
  refine ⟨h.1, ?_⟩
  have habs : |(3 : ℚ) - (some (5 : ℚ)).getD 0| > 1 / 1000000 := by norm_num
  have hs := h.2.1.mpr habs
  rcases Option.isSome_iff_exists.mp hs with ⟨e, he⟩
  obtain ⟨h1, h2, h3, h4⟩ := h.2.2 e he
  rw [he]
  obtain ⟨eo, en, ec, et⟩ := e
  simp only at h1 h2 h3 h4
  rw [h1, h2, h3, h4]
  norm_num

end Db
